import Mathlib

/-!
Verification of `start_server.py`, a static HTTP file server.

The script is embedded as a run function over an explicit environment
(the directory of the entry script, the filesystem under the serving
root, whether binding the socket fails, the command-line arguments)
and a finite prefix of serve-loop events (incoming requests and a
SIGINT delivery).  A run yields the ordered list of observable actions,
the exit status (`none` while the process is still running), and a flag
recording whether the `except KeyboardInterrupt` branch ever executed.
-/

namespace StaticFileServer

/-- The fixed listening port: `PORT = 8000` in `start_server.py`. -/
def PORT : Nat := 8000

/-- A filesystem node under the serving root: a regular file with byte
content and a readability flag, or a directory with a listing of entry
names. -/
inductive FsNode where
  | file (content : List Nat) (readable : Bool)
  | directory (listing : List String)
  deriving DecidableEq, Repr

/-- The environment of one run of the process: the directory containing
the entry script (`os.path.dirname(os.path.abspath(__file__))`), the
filesystem visible under the serving root, whether binding port 8000
fails (and with which error message), and the command-line arguments
the process was invoked with.  The script never reads `sys.argv`. -/
structure Env where
  scriptDir : String
  fs : List (String × FsNode)
  bindError : Option String
  args : List String
  deriving DecidableEq, Repr

/-- Look a request path up in the serving-root filesystem. -/
def lookupFs (fs : List (String × FsNode)) (p : String) : Option FsNode :=
  (fs.find? (fun e => e.1 == p)).map Prod.snd

/-- An HTTP response: status code and body bytes. -/
structure Response where
  status : Nat
  body : List Nat
  deriving DecidableEq, Repr

/-- Modelled from the spec: `http.server.SimpleHTTPRequestHandler` is
standard-library code not present in the repository.  Per the spec's
serve-loop and error-handling sections: map the request path to a file
under the serving root, returning file contents with status 200, a
directory listing with status 200 if the path is a directory, a 403 on
permission denied, or a not-found (404) response otherwise. -/
def simpleHTTPRequestHandler (fs : List (String × FsNode)) (p : String) : Response :=
  match lookupFs fs p with
  | some (.file c true) => ⟨200, c⟩
  | some (.file _ false) => ⟨403, []⟩
  | some (.directory listing) =>
      ⟨200, listing.foldr (fun s acc => s.toList.map Char.toNat ++ acc) []⟩
  | none => ⟨404, []⟩

/-- An event delivered to the serve loop: an incoming request for a
path, or the delivery of a SIGINT to the process. -/
inductive Event where
  | request (path : String)
  | sigint
  deriving DecidableEq, Repr

/-- An observable action of the process. -/
inductive Out where
  | chdirTo (dir : String)
  | bound (host : String) (port : Nat)
  | printedLine (s : String)
  | sentResponse (status : Nat) (body : List Nat)
  | releasedSocket
  | printedErr (s : String)
  deriving DecidableEq, Repr

/-- SIGINT disposition: Python's default (raise `KeyboardInterrupt` in
the main thread) or the script's `signal_handler` registered by
`signal.signal(signal.SIGINT, signal_handler)`. -/
inductive SigHandler where
  | defaultHandler
  | customHandler
  deriving DecidableEq, Repr

/-- The line printed by `signal_handler` and by the
`except KeyboardInterrupt` branch. -/
def shutdownMsg : String := "\nShutting down server..."

/-- The startup banner `f"Serving at http://localhost:{PORT}"`. -/
def servingMsg : String := "Serving at http://localhost:" ++ toString PORT

/-- Outcome of running the process on a finite event prefix: outputs
produced so far, exit status (`none` while still running), and whether
the `except KeyboardInterrupt` branch of `start_server` executed. -/
structure RunResult where
  outs : List Out
  exitCode : Option Nat
  kbBranch : Bool
  deriving DecidableEq, Repr

/-- `httpd.serve_forever()` under the `try/except KeyboardInterrupt` of
`start_server`, driven by a finite event prefix.  A request is
delegated to the handler and answered.  A SIGINT is dispatched by the
registered disposition: the script's `signal_handler` prints the
shutdown message and executes `sys.exit(0)`, raising `SystemExit 0`,
which `except KeyboardInterrupt` does not catch; the default
disposition raises `KeyboardInterrupt`, caught by the `except` branch,
which prints the same message and calls `httpd.shutdown()`, after
which `start_server` returns and the interpreter exits with status 0. -/
def serveLoop (fs : List (String × FsNode)) (h : SigHandler) :
    List Event → RunResult
  | [] => ⟨[], none, false⟩
  | .request p :: rest =>
      let r := simpleHTTPRequestHandler fs p
      let res := serveLoop fs h rest
      ⟨.sentResponse r.status r.body :: res.outs, res.exitCode, res.kbBranch⟩
  | .sigint :: _ =>
      match h with
      | .customHandler => ⟨[.printedLine shutdownMsg], some 0, false⟩
      | .defaultHandler => ⟨[.printedLine shutdownMsg], some 0, true⟩

/-- `start_server()`: register `signal_handler` for SIGINT, `os.chdir`
to the script's directory, open `socketserver.TCPServer(("", PORT),
Handler)` inside a `with` block (whose exit releases the listening
socket however the block is left), print the serving banner, and enter
the serve loop.  Modelled from the spec for the parts outside the
script (socket library and interpreter exit protocol): a bind failure
is fatal, the underlying error is printed and the process exits with
the interpreter's uncaught-exception status 1, per "Fails fatally if
the port is already in use (reported to the operator; process exits
non-zero)". -/
def startServer (env : Env) (events : List Event) : RunResult :=
  let h := SigHandler.customHandler
  let pre : List Out := [.chdirTo env.scriptDir]
  match env.bindError with
  | some err => ⟨pre ++ [.printedErr err], some 1, false⟩
  | none =>
      let res := serveLoop env.fs h events
      let post : List Out :=
        match res.exitCode with
        | some _ => [.releasedSocket]
        | none => []
      ⟨pre ++ [.bound "" PORT, .printedLine servingMsg] ++ res.outs ++ post,
       res.exitCode, res.kbBranch⟩

/-- The responses sent during a run, in order. -/
def responses (outs : List Out) : List Response :=
  outs.filterMap fun o =>
    match o with
    | .sentResponse s b => some ⟨s, b⟩
    | _ => none

/-- The request paths an event prefix delivers to the serve loop:
those arriving before the first SIGINT. -/
def requestedPaths : List Event → List String
  | [] => []
  | .request p :: rest => p :: requestedPaths rest
  | .sigint :: _ => []

/-- Whether an output is a socket binding. -/
def Out.isBound : Out → Bool
  | .bound _ _ => true
  | _ => false

/-- Whether an output is a change of working directory. -/
def Out.isChdir : Out → Bool
  | .chdirTo _ => true
  | _ => false

/-- A sample environment for concrete runs: bind succeeds and the
serving root holds one readable file. -/
def envOk : Env :=
  ⟨"/srv", [("index.html", .file [104, 105] true)], none, []⟩

/-- A sample environment where binding port 8000 fails. -/
def envBad : Env :=
  ⟨"/srv", [], some "OSError: [Errno 98] Address already in use", []⟩

theorem responses_serveLoop (fs : List (String × FsNode)) (h : SigHandler)
    (evs : List Event) :
    responses (serveLoop fs h evs).outs =
      (requestedPaths evs).map (simpleHTTPRequestHandler fs) := by
  induction evs with
  | nil => rfl
  | cons e rest ih =>
    cases e with
    | request p =>
        simp [serveLoop, requestedPaths, responses, List.filterMap_cons] at ih ⊢
        exact ih
    | sigint => cases h <;> rfl

theorem serveLoop_exit_none (fs : List (String × FsNode)) (h : SigHandler)
    (evs : List Event) (hn : Event.sigint ∉ evs) :
    (serveLoop fs h evs).exitCode = none := by
  induction evs with
  | nil => rfl
  | cons e rest ih =>
    cases e with
    | request p =>
        simp only [List.mem_cons, not_or] at hn
        simpa [serveLoop] using ih hn.2
    | sigint => exact absurd (List.mem_cons_self _ _) hn

theorem serveLoop_exit_some_sigint (fs : List (String × FsNode)) (h : SigHandler)
    (evs : List Event) (c : Nat) (hc : (serveLoop fs h evs).exitCode = some c) :
    Event.sigint ∈ evs := by
  induction evs with
  | nil => exact absurd hc (by simp [serveLoop])
  | cons e rest ih =>
    cases e with
    | request p =>
        simp only [serveLoop] at hc
        exact List.mem_cons_of_mem _ (ih hc)
    | sigint => exact List.mem_cons_self _ _

theorem serveLoop_custom_sigint (fs : List (String × FsNode))
    (evs : List Event) (hs : Event.sigint ∈ evs) :
    (serveLoop fs SigHandler.customHandler evs).exitCode = some 0 ∧
      Out.printedLine shutdownMsg ∈
        (serveLoop fs SigHandler.customHandler evs).outs := by
  induction evs with
  | nil => cases hs
  | cons e rest ih =>
    cases e with
    | request p =>
        have hs2 : Event.sigint ∈ rest := by
          cases hs with
          | tail _ h2 => exact h2
        have h3 := ih hs2
        refine ⟨by simpa [serveLoop] using h3.1, ?_⟩
        simp only [serveLoop, List.mem_cons]
        exact Or.inr h3.2
    | sigint => exact ⟨rfl, by simp [serveLoop, shutdownMsg]⟩

theorem serveLoop_custom_kb (fs : List (String × FsNode)) (evs : List Event) :
    (serveLoop fs SigHandler.customHandler evs).kbBranch = false := by
  induction evs with
  | nil => rfl
  | cons e rest ih =>
    cases e with
    | request p => simpa [serveLoop] using ih
    | sigint => rfl

theorem serveLoop_no_bound (fs : List (String × FsNode)) (h : SigHandler)
    (evs : List Event) :
    (serveLoop fs h evs).outs.filter Out.isBound = [] := by
  induction evs with
  | nil => rfl
  | cons e rest ih =>
    cases e with
    | request p => simpa [serveLoop, List.filter_cons, Out.isBound] using ih
    | sigint => cases h <;> rfl

theorem serveLoop_no_chdir (fs : List (String × FsNode)) (h : SigHandler)
    (evs : List Event) :
    (serveLoop fs h evs).outs.filter Out.isChdir = [] := by
  induction evs with
  | nil => rfl
  | cons e rest ih =>
    cases e with
    | request p => simpa [serveLoop, List.filter_cons, Out.isChdir] using ih
    | sigint => cases h <;> rfl

theorem serveLoop_no_servingMsg (fs : List (String × FsNode)) (h : SigHandler)
    (evs : List Event) :
    (serveLoop fs h evs).outs.count (Out.printedLine servingMsg) = 0 := by
  induction evs with
  | nil => rfl
  | cons e rest ih =>
    cases e with
    | request p =>
        simpa [serveLoop, List.count_cons] using ih
    | sigint =>
        cases h <;>
          · simp only [serveLoop]
            decide

theorem responses_append (a b : List Out) :
    responses (a ++ b) = responses a ++ responses b := by
  simp [responses, List.filterMap_append]

theorem responses_startServer (env : Env) (evs : List Event)
    (hb : env.bindError = none) :
    responses (startServer env evs).outs =
      (requestedPaths evs).map (simpleHTTPRequestHandler env.fs) := by
  have hpost :
      responses
        (match (serveLoop env.fs SigHandler.customHandler evs).exitCode with
          | some _ => [Out.releasedSocket]
          | none => []) = [] := by
    cases (serveLoop env.fs SigHandler.customHandler evs).exitCode <;> rfl
  simp only [startServer, hb]
  rw [responses_append, responses_append, responses_append,
    responses_serveLoop, hpost]
  simp [responses]

/-- Claim C1: when binding succeeds, on receipt of a SIGINT the process
prints the shutdown message, releases the listening socket, and exits
with status 0 (the handler's `sys.exit(0)` propagates as `SystemExit`
through the `with` block). -/
theorem c1_sigint_clean_exit (env : Env) (evs : List Event)
    (hb : env.bindError = none) (hs : Event.sigint ∈ evs) :
    (startServer env evs).exitCode = some 0 ∧
      Out.printedLine shutdownMsg ∈ (startServer env evs).outs ∧
      Out.releasedSocket ∈ (startServer env evs).outs := by
  obtain ⟨h0, hmem⟩ := serveLoop_custom_sigint env.fs evs hs
  refine ⟨?_, ?_, ?_⟩
  · simp [startServer, hb, h0]
  · simp [startServer, hb, h0, hmem]
  · simp [startServer, hb, h0]

theorem c1_sigint_clean_exit_witness :
    envOk.bindError = none ∧ Event.sigint ∈ [Event.sigint] ∧
      ((startServer envOk [Event.sigint]).exitCode = some 0 ∧
        Out.printedLine shutdownMsg ∈ (startServer envOk [Event.sigint]).outs ∧
        Out.releasedSocket ∈ (startServer envOk [Event.sigint]).outs) :=
  ⟨rfl, by decide, c1_sigint_clean_exit envOk [Event.sigint] rfl (by decide)⟩

/-- Claim C2: on every startup that binds successfully, exactly one
listening socket is opened, bound to all interfaces (host `""`) on the
fixed port 8000, for every environment and event sequence alike: no
configuration influences the binding. -/
theorem c2_bind_all_interfaces_8000 (env : Env) (evs : List Event)
    (hb : env.bindError = none) :
    (startServer env evs).outs.filter Out.isBound = [Out.bound "" 8000] := by
  cases hc : (serveLoop env.fs SigHandler.customHandler evs).exitCode with
  | none =>
      simp [startServer, hb, hc, List.filter_append, serveLoop_no_bound,
        Out.isBound, PORT]
  | some c =>
      simp [startServer, hb, hc, List.filter_append, serveLoop_no_bound,
        Out.isBound, PORT]

theorem c2_bind_all_interfaces_8000_witness :
    envOk.bindError = none ∧
      (startServer envOk []).outs.filter Out.isBound = [Out.bound "" 8000] :=
  ⟨rfl, c2_bind_all_interfaces_8000 envOk [] rfl⟩

/-- Claim C3: a bind failure is fatal: the process exits with a
non-zero status, the underlying error is printed, no response is ever
sent and the serving banner never appears (the serve loop is not
entered). -/
theorem c3_bind_failure_fatal (env : Env) (evs : List Event) (err : String)
    (hb : env.bindError = some err) :
    (∃ c, (startServer env evs).exitCode = some c ∧ c ≠ 0) ∧
      Out.printedErr err ∈ (startServer env evs).outs ∧
      responses (startServer env evs).outs = [] ∧
      Out.printedLine servingMsg ∉ (startServer env evs).outs := by
  refine ⟨⟨1, by simp [startServer, hb], by decide⟩, ?_, ?_, ?_⟩
  · simp [startServer, hb]
  · simp [startServer, hb, responses]
  · simp [startServer, hb]

theorem c3_bind_failure_fatal_witness :
    envBad.bindError = some "OSError: [Errno 98] Address already in use" ∧
      ((∃ c, (startServer envBad []).exitCode = some c ∧ c ≠ 0) ∧
        Out.printedErr "OSError: [Errno 98] Address already in use" ∈
          (startServer envBad []).outs ∧
        responses (startServer envBad []).outs = [] ∧
        Out.printedLine servingMsg ∉ (startServer envBad []).outs) :=
  ⟨rfl, c3_bind_failure_fatal envBad []
    "OSError: [Errno 98] Address already in use" rfl⟩

/-- Claim C4: on every startup, the very first observable action is the
change of the working directory to the directory containing the entry
script, and it is the only directory change of the whole run — so it
precedes the socket binding and the serving root stays equal to that
directory for the entire run. -/
theorem c4_chdir_first_and_only (env : Env) (evs : List Event) :
    (startServer env evs).outs.head? = some (Out.chdirTo env.scriptDir) ∧
      (startServer env evs).outs.filter Out.isChdir =
        [Out.chdirTo env.scriptDir] := by
  cases hb : env.bindError with
  | some err =>
      exact ⟨by simp [startServer, hb],
        by simp [startServer, hb, Out.isChdir]⟩
  | none =>
      cases hc : (serveLoop env.fs SigHandler.customHandler evs).exitCode with
      | none =>
          exact ⟨by simp [startServer, hb, hc],
            by simp [startServer, hb, hc, List.filter_append,
              serveLoop_no_chdir, Out.isChdir]⟩
      | some c =>
          exact ⟨by simp [startServer, hb, hc],
            by simp [startServer, hb, hc, List.filter_append,
              serveLoop_no_chdir, Out.isChdir]⟩

/-- Claim C5: a request whose path names an existing readable file
under the serving root is answered with status 200 and a body equal,
byte for byte, to that file's content: the i-th response of the run
answers the i-th request. -/
theorem c5_existing_file_200 (env : Env) (evs : List Event) (i : Nat)
    (p : String) (c : List Nat) (hb : env.bindError = none)
    (hi : (requestedPaths evs)[i]? = some p)
    (hf : lookupFs env.fs p = some (FsNode.file c true)) :
    (responses (startServer env evs).outs)[i]? = some ⟨200, c⟩ := by
  rw [responses_startServer env evs hb, List.getElem?_map, hi]
  simp [simpleHTTPRequestHandler, hf]

theorem c5_existing_file_200_witness :
    envOk.bindError = none ∧
      (requestedPaths [Event.request "index.html"])[0]? = some "index.html" ∧
      lookupFs envOk.fs "index.html" = some (FsNode.file [104, 105] true) ∧
      (responses (startServer envOk [Event.request "index.html"]).outs)[0]? =
        some ⟨200, [104, 105]⟩ :=
  ⟨rfl, rfl, by decide,
    c5_existing_file_200 envOk [Event.request "index.html"] 0 "index.html"
      [104, 105] rfl rfl (by decide)⟩

/-- Claim C6: a request whose path names no file or directory under the
serving root is answered with status 404, and each request receives
exactly one response (no retry): the responses of a run are in
one-to-one positional correspondence with its requests. -/
theorem c6_missing_path_404 (env : Env) (evs : List Event) (i : Nat)
    (p : String) (hb : env.bindError = none)
    (hi : (requestedPaths evs)[i]? = some p)
    (hf : lookupFs env.fs p = none) :
    (responses (startServer env evs).outs)[i]? = some ⟨404, []⟩ ∧
      (responses (startServer env evs).outs).length =
        (requestedPaths evs).length := by
  rw [responses_startServer env evs hb]
  constructor
  · rw [List.getElem?_map, hi]
    simp [simpleHTTPRequestHandler, hf]
  · simp

theorem c6_missing_path_404_witness :
    envOk.bindError = none ∧
      (requestedPaths [Event.request "nope.txt"])[0]? = some "nope.txt" ∧
      lookupFs envOk.fs "nope.txt" = none ∧
      ((responses (startServer envOk [Event.request "nope.txt"]).outs)[0]? =
          some ⟨404, []⟩ ∧
        (responses (startServer envOk [Event.request "nope.txt"]).outs).length =
          (requestedPaths [Event.request "nope.txt"]).length) :=
  ⟨rfl, rfl, by decide,
    c6_missing_path_404 envOk [Event.request "nope.txt"] 0 "nope.txt" rfl rfl
      (by decide)⟩

/-- Claim C7: once entered, the serve loop never terminates of its own
accord: as long as no SIGINT is delivered the process is still running
(`exitCode = none`) after any number of requests, and conversely any
exit of the process requires a SIGINT among the events. -/
theorem c7_loop_never_self_terminates (env : Env) (evs : List Event)
    (hb : env.bindError = none) :
    (Event.sigint ∉ evs → (startServer env evs).exitCode = none) ∧
      ∀ c, (startServer env evs).exitCode = some c → Event.sigint ∈ evs := by
  constructor
  · intro hn
    have h1 := serveLoop_exit_none env.fs SigHandler.customHandler evs hn
    simp [startServer, hb, h1]
  · intro c hc
    have h2 : (serveLoop env.fs SigHandler.customHandler evs).exitCode =
        some c := by
      simpa [startServer, hb] using hc
    exact serveLoop_exit_some_sigint env.fs SigHandler.customHandler evs c h2

theorem c7_loop_never_self_terminates_witness :
    envOk.bindError = none ∧
      ((Event.sigint ∉ [Event.request "index.html"] →
          (startServer envOk [Event.request "index.html"]).exitCode = none) ∧
        ∀ c, (startServer envOk [Event.request "index.html"]).exitCode =
            some c →
          Event.sigint ∈ [Event.request "index.html"]) :=
  ⟨rfl, c7_loop_never_self_terminates envOk [Event.request "index.html"] rfl⟩

/-- Claim C8: on every successful startup the serving URL banner is
printed immediately after the chdir and the bind, before anything else
(in particular before any response), and never again during the run. -/
theorem c8_banner_once_before_serving (env : Env) (evs : List Event)
    (hb : env.bindError = none) :
    ∃ rest, (startServer env evs).outs =
        Out.chdirTo env.scriptDir :: Out.bound "" 8000 ::
          Out.printedLine servingMsg :: rest ∧
      rest.count (Out.printedLine servingMsg) = 0 := by
  cases hc : (serveLoop env.fs SigHandler.customHandler evs).exitCode with
  | none =>
      refine ⟨(serveLoop env.fs SigHandler.customHandler evs).outs, ?_,
        serveLoop_no_servingMsg env.fs SigHandler.customHandler evs⟩
      simp [startServer, hb, hc, PORT]
  | some c =>
      refine ⟨(serveLoop env.fs SigHandler.customHandler evs).outs ++
        [Out.releasedSocket], ?_, ?_⟩
      · simp [startServer, hb, hc, PORT]
      · rw [List.count_append,
          serveLoop_no_servingMsg env.fs SigHandler.customHandler evs]
        decide

theorem c8_banner_once_before_serving_witness :
    envOk.bindError = none ∧
      ∃ rest, (startServer envOk []).outs =
          Out.chdirTo envOk.scriptDir :: Out.bound "" 8000 ::
            Out.printedLine servingMsg :: rest ∧
        rest.count (Out.printedLine servingMsg) = 0 :=
  ⟨rfl, c8_banner_once_before_serving envOk [] rfl⟩

/-- Claim C9: the script never reads its command line; two runs
differing only in the command-line arguments are observationally
identical (same outputs, exit status and branch flag). -/
theorem c9_args_irrelevant (d : String) (fs : List (String × FsNode))
    (be : Option String) (a b : List String) (evs : List Event) :
    startServer ⟨d, fs, be, a⟩ evs = startServer ⟨d, fs, be, b⟩ evs := rfl

/-- Claim C10: because `signal_handler` (which raises `SystemExit`) is
registered for SIGINT before the serve loop starts, the
`except KeyboardInterrupt` branch never executes in any run of
`start_server`; it would execute only under the default SIGINT
disposition, which the script replaces. -/
theorem c10_kb_branch_unreachable (env : Env) (evs evs2 : List Event) :
    (startServer env evs).kbBranch = false ∧
      (serveLoop env.fs SigHandler.defaultHandler
        (Event.sigint :: evs2)).kbBranch = true := by
  constructor
  · cases hb : env.bindError with
    | some err => simp [startServer, hb]
    | none => simpa [startServer, hb] using serveLoop_custom_kb env.fs evs
  · rfl

end StaticFileServer
